import Mathlib

/-!
Shallow embedding of the React frontend of the movie-recommender workshop
(`frontend/src`): the search request construction in `App.tsx` and
`api/searchApi.ts`, the help-chat state machine in `components/HelpChat.tsx`,
the badge and score rendering in `HelpChat.tsx` and `MovieCard.tsx`, the
filter sliders in `FilterPanel.tsx`, and the stats panel in
`pages/HelpCenter.tsx`.  Machine numbers that the UI treats as exact
(slider values, thresholds, scores) are embedded as rationals; optional
JSON fields are `Option` values, where `none` models a field that is
`undefined` and hence dropped by `JSON.stringify`.
-/

namespace MovieRecommender

/-- The five search modes of `SearchType` in `api/searchApi.ts`. -/
inductive SearchType where
  | vector
  | filtered
  | keyword
  | hybrid
  | range
  deriving DecidableEq, Repr

/-- Body of a search POST request.  Fields that the TS code sets to
`undefined` are `none` here: `JSON.stringify` omits them from the body. -/
structure SearchRequestBody where
  query : String
  num_results : Nat
  genre : Option String := none
  min_rating : Option Nat := none
  alpha : Option ℚ := none
  distance_threshold : Option ℚ := none
  deriving DecidableEq, Repr

/-- A POST request issued through `fetchApi` in `api/searchApi.ts`:
an endpoint and a JSON body. -/
structure SearchRequest where
  endpoint : String
  body : SearchRequestBody
  deriving DecidableEq, Repr

/-- `vectorSearch` in `api/searchApi.ts`: POST to `/search/vector`. -/
def vectorSearch (b : SearchRequestBody) : SearchRequest :=
  { endpoint := "/search/vector", body := b }

/-- `filteredSearch` in `api/searchApi.ts`: POST to `/search/filtered`. -/
def filteredSearch (b : SearchRequestBody) : SearchRequest :=
  { endpoint := "/search/filtered", body := b }

/-- `keywordSearch` in `api/searchApi.ts`: POST to `/search/keyword`. -/
def keywordSearch (b : SearchRequestBody) : SearchRequest :=
  { endpoint := "/search/keyword", body := b }

/-- `hybridSearch` in `api/searchApi.ts`: POST to `/search/hybrid`. -/
def hybridSearch (b : SearchRequestBody) : SearchRequest :=
  { endpoint := "/search/hybrid", body := b }

/-- `rangeSearch` in `api/searchApi.ts`: POST to `/search/range`. -/
def rangeSearch (b : SearchRequestBody) : SearchRequest :=
  { endpoint := "/search/range", body := b }

/-- The endpoint that belongs to each search mode, per `api/searchApi.ts`. -/
def endpointFor : SearchType → String
  | .vector => "/search/vector"
  | .filtered => "/search/filtered"
  | .keyword => "/search/keyword"
  | .hybrid => "/search/hybrid"
  | .range => "/search/range"

/-- The filter state held by `App` in `App.tsx` (`genre`, `minRating`,
`alpha`, `distanceThreshold`, `numResults`). -/
structure SearchFilters where
  genre : String
  minRating : Nat
  alpha : ℚ
  distanceThreshold : ℚ
  numResults : Nat
  deriving DecidableEq, Repr

/-- The `useState` initial values in `App.tsx`:
`genre = 'all'`, `minRating = 1`, `alpha = 0.5`,
`distanceThreshold = 0.5`, `numResults = 5`. -/
def defaultFilters : SearchFilters :=
  { genre := "all", minRating := 1, alpha := 1/2
    distanceThreshold := 1/2, numResults := 5 }

/-- The `switch (searchType)` of `handleSearch` in `App.tsx`: each arm awaits
exactly one API call, so the list of issued requests is a singleton.  The
`filtered` arm passes `genre !== 'all' ? genre : undefined` and
`minRating > 1 ? minRating : undefined`. -/
def handleSearch (searchType : SearchType) (query : String) (f : SearchFilters) :
    List SearchRequest :=
  match searchType with
  | .vector =>
      [vectorSearch { query := query, num_results := f.numResults }]
  | .filtered =>
      [filteredSearch
        { query := query
          num_results := f.numResults
          genre := if f.genre ≠ "all" then some f.genre else none
          min_rating := if f.minRating > 1 then some f.minRating else none }]
  | .keyword =>
      [keywordSearch { query := query, num_results := f.numResults }]
  | .hybrid =>
      [hybridSearch
        { query := query, num_results := f.numResults, alpha := some f.alpha }]
  | .range =>
      [rangeSearch
        { query := query
          num_results := f.numResults
          distance_threshold := some f.distanceThreshold }]

/-- The render-time state captured by the `handleSearchTypeChange` closure in
`App.tsx`: `lastQuery` and `hasSearched` are its own dependencies, and the
`handleSearch` value it closes over was itself created with the `searchType`
and filter values of that same render. -/
structure ClosureState where
  searchType : SearchType
  lastQuery : String
  hasSearched : Bool
  filters : SearchFilters
  deriving DecidableEq, Repr

/-- `handleSearchTypeChange` in `App.tsx`: sets the new search type, and when
`lastQuery && hasSearched` schedules `handleSearch(lastQuery)` through
`setTimeout`.  The scheduled call runs the `handleSearch` closure captured
before the state update, so the request is built with the captured
(pre-click) `searchType`, not the newly selected one.  Returns the new
`searchType` state and the list of deferred requests. -/
def handleSearchTypeChange (captured : ClosureState) (newType : SearchType) :
    SearchType × List SearchRequest :=
  (newType,
    if captured.lastQuery ≠ "" ∧ captured.hasSearched = true then
      handleSearch captured.searchType captured.lastQuery captured.filters
    else [])

/-- JS `String.prototype.trim`: drop leading and trailing whitespace. -/
def jsTrim (s : String) : String :=
  String.mk
    (((s.data.dropWhile Char.isWhitespace).reverse.dropWhile
        Char.isWhitespace).reverse)

/-- `handleSubmit` in `components/SearchBar.tsx`: calls
`onSearch(query.trim())` iff `query.trim()` is truthy (non-empty).
`some s` is the issued `onSearch` call with its argument. -/
def handleSubmit (query : String) : Option String :=
  if jsTrim query ≠ "" then some (jsTrim query) else none

/-- `TokenUsage` in `api/searchApi.ts`. -/
structure TokenUsage where
  prompt_tokens : Nat
  completion_tokens : Nat
  total_tokens : Nat
  deriving DecidableEq, Repr

/-- `HelpArticleSource` in `api/searchApi.ts`. -/
structure HelpArticleSource where
  id : String
  title : String
  category : String
  content : String
  similarity : Option ℚ := none
  deriving DecidableEq, Repr

/-- `HelpChatResponse` in `api/searchApi.ts`: the JSON returned by
`POST /help/chat`.  Optional JSON fields are `Option`. -/
structure HelpChatResponse where
  answer : String
  sources : List HelpArticleSource
  from_cache : Bool
  cache_similarity : Option ℚ := none
  response_time_ms : Nat
  token_usage : Option TokenUsage := none
  blocked : Option Bool := none
  deriving DecidableEq, Repr

/-- Message roles in `HelpChatMessage`. -/
inductive Role where
  | user
  | assistant
  deriving DecidableEq, Repr

/-- `HelpChatMessage` in `api/searchApi.ts`, the transcript entry type of
`HelpChat.tsx`.  The `id` and `timestamp` fields (wall-clock values from
`Date.now`) are not modelled; every other field is. -/
structure HelpChatMessage where
  role : Role
  content : String
  sources : Option (List HelpArticleSource) := none
  fromCache : Option Bool := none
  cacheSimilarity : Option ℚ := none
  responseTimeMs : Option Nat := none
  tokenUsage : Option TokenUsage := none
  blocked : Option Bool := none
  deriving DecidableEq, Repr

/-- The `userMessage` literal built at the top of `sendMessage` in
`HelpChat.tsx`: role `user`, content the entered text, no optional fields. -/
def userMessageOf (text : String) : HelpChatMessage :=
  { role := .user, content := text }

/-- The `botMessage` literal built from the parsed response `data` in the
success path of `sendMessage` in `HelpChat.tsx`. -/
def botMessageOf (data : HelpChatResponse) : HelpChatMessage :=
  { role := .assistant
    content := data.answer
    sources := some data.sources
    fromCache := some data.from_cache
    cacheSimilarity := data.cache_similarity
    responseTimeMs := some data.response_time_ms
    tokenUsage := data.token_usage
    blocked := data.blocked }

/-- The fixed `errorMessage` literal appended in the catch branch of
`sendMessage` in `HelpChat.tsx`. -/
def errorMessage : HelpChatMessage :=
  { role := .assistant
    content := "Sorry, I encountered an error. Please try again." }

/-- Body of the `POST /api/help/chat` request built in `sendMessage`. -/
structure ChatRequestBody where
  message : String
  use_cache : Bool
  deriving DecidableEq, Repr

/-- Outcome of the single `fetch` inside `sendMessage`: the response parsed
OK, the response had a non-OK status (the code then throws before parsing),
or the fetch itself rejected. -/
inductive FetchOutcome where
  | ok (data : HelpChatResponse)
  | httpError
  | networkError
  deriving DecidableEq, Repr

/-- Result of one `sendMessage` run: the transcript, the `isLoading` flag
after the `finally` block, and the list of HTTP requests issued. -/
structure SendMessageResult where
  messages : List HelpChatMessage
  isLoading : Bool
  requests : List ChatRequestBody
  deriving DecidableEq, Repr

/-- `sendMessage` in `HelpChat.tsx`.  Guard: `if (!text.trim() || isLoading)
return;`.  Otherwise it appends the user message, issues one fetch with body
`{message: text, use_cache: true}`, then appends either the bot message built
from the parsed data or the fixed error message (on non-OK status or a
thrown fetch), and resets `isLoading` in `finally`. -/
def sendMessage (messages : List HelpChatMessage) (isLoading : Bool)
    (text : String) (outcome : FetchOutcome) : SendMessageResult :=
  if jsTrim text = "" ∨ isLoading = true then
    { messages := messages, isLoading := isLoading, requests := [] }
  else
    match outcome with
    | .ok data =>
        { messages := messages ++ [userMessageOf text] ++ [botMessageOf data]
          isLoading := false
          requests := [{ message := text, use_cache := true }] }
    | .httpError =>
        { messages := messages ++ [userMessageOf text] ++ [errorMessage]
          isLoading := false
          requests := [{ message := text, use_cache := true }] }
    | .networkError =>
        { messages := messages ++ [userMessageOf text] ++ [errorMessage]
          isLoading := false
          requests := [{ message := text, use_cache := true }] }

/-- The three status badges a `MessageBubble` can render. -/
inductive Badge where
  | offTopic
  | cached
  | llm
  deriving DecidableEq, Repr

/-- The badge ternary in `MessageBubble` (`HelpChat.tsx`):
`message.blocked ? Off-topic : message.fromCache ? Cached : LLM`.
JS truthiness of `boolean | undefined` is `Option.getD false`.
The chain renders exactly one badge span, returned here as a list. -/
def statusBadges (m : HelpChatMessage) : List Badge :=
  if m.blocked.getD false = true then [.offTopic]
  else if m.fromCache.getD false = true then [.cached]
  else [.llm]

/-- The token-usage span in `MessageBubble` is guarded by
`{message.tokenUsage && ...}`; an object is truthy, so it renders iff the
field is present. -/
def tokenUsageShown (m : HelpChatMessage) : Bool :=
  m.tokenUsage.isSome

/-- The `rating` field of `MovieResult` is `number | string`. -/
inductive RatingValue where
  | num (v : ℚ)
  | str (s : String)
  deriving DecidableEq, Repr

/-- `MovieResult` in `api/searchApi.ts`. -/
structure MovieResult where
  title : String
  genre : String
  rating : RatingValue
  description : String
  distance : Option ℚ := none
  similarity : Option ℚ := none
  score : Option ℚ := none
  hybrid_score : Option ℚ := none
  vector_similarity : Option ℚ := none
  text_score : Option ℚ := none
  deriving DecidableEq, Repr

/-- The score value shown by `getScoreDisplay` in `MovieCard.tsx`: a
similarity percentage (`similarity * 100`) or a raw BM25 score. -/
inductive ScoreDisplayVal where
  | similarityPercent (v : ℚ)
  | bm25Score (v : ℚ)
  deriving DecidableEq, Repr

/-- `getScoreDisplay` in `MovieCard.tsx`.  The first `if` covers the
`vector`, `filtered` and `range` modes and returns only when
`movie.similarity != null`; control then falls to the `keyword` test;
hybrid scores are left to the breakdown section (`null` here). -/
def getScoreDisplay (movie : MovieResult) (searchType : String) :
    Option ScoreDisplayVal :=
  match (if searchType = "vector" ∨ searchType = "filtered" ∨ searchType = "range"
         then movie.similarity else none) with
  | some s => some (.similarityPercent (s * 100))
  | none =>
    match (if searchType = "keyword" then movie.score else none) with
    | some sc => some (.bm25Score sc)
    | none => none

/-- A cell of the hybrid breakdown: a value, or the literal `N/A` rendered by
`?? 'N/A'` when the component score is missing. -/
inductive BreakdownCell where
  | value (v : ℚ)
  | na
  deriving DecidableEq, Repr

/-- The `?? 'N/A'` fallback applied to each component score. -/
def cellOf : Option ℚ → BreakdownCell
  | some v => .value v
  | none => .na

/-- The three rows of the hybrid breakdown section in `MovieCard.tsx`. -/
structure HybridBreakdown where
  vectorSimilarity : BreakdownCell
  textScore : BreakdownCell
  hybridScore : BreakdownCell
  deriving DecidableEq, Repr

/-- The `{searchType === 'hybrid' && ...}` breakdown block in
`MovieCard.tsx`: rendered exactly in hybrid mode, one cell per component
score with `N/A` for a missing one. -/
def hybridBreakdown (movie : MovieResult) (searchType : String) :
    Option HybridBreakdown :=
  if searchType = "hybrid" then
    some { vectorSimilarity := cellOf movie.vector_similarity
           textScore := cellOf movie.text_score
           hybridScore := cellOf movie.hybrid_score }
  else none

/-- `cache_stats` of `HelpStats` in `pages/HelpCenter.tsx`.  The
`distance_threshold` is an `Option` because the rendering guards it with
`|| 0` against an absent value. -/
structure CacheStats where
  name : String := ""
  ttl : Nat := 0
  distance_threshold : Option ℚ := none
  num_entries : Nat := 0
  status : String := ""
  deriving DecidableEq, Repr

/-- The value of `stats.cache_stats?.distance_threshold || 0` in
`HelpCenter.tsx`: 0 when the stats or the threshold are absent.  (`|| 0`
also maps a present threshold of 0 to 0, which is the same value.) -/
def effectiveDistanceThreshold (cs : Option CacheStats) : ℚ :=
  match cs with
  | none => 0
  | some c => c.distance_threshold.getD 0

/-- The Similarity Threshold stat shown in the stats panel of
`HelpCenter.tsx`: `(1 - (stats.cache_stats?.distance_threshold || 0)) * 100`
(then formatted with `toFixed(0)` and a percent sign). -/
def displayedSimilarityThreshold (cs : Option CacheStats) : ℚ :=
  (1 - effectiveDistanceThreshold cs) * 100

/-- Filter-state updates emitted by the controls in `FilterPanel.tsx`,
routed to the `App.tsx` setters. -/
inductive FilterEvent where
  | setGenre (g : String)
  | setMinRating (r : Nat)
  | setAlpha (a : ℚ)
  | setDistanceThreshold (d : ℚ)
  | setNumResults (n : Nat)
  deriving DecidableEq, Repr

/-- Applying one filter-state update. -/
def applyFilterEvent (f : SearchFilters) : FilterEvent → SearchFilters
  | .setGenre g => { f with genre := g }
  | .setMinRating r => { f with minRating := r }
  | .setAlpha a => { f with alpha := a }
  | .setDistanceThreshold d => { f with distanceThreshold := d }
  | .setNumResults n => { f with numResults := n }

/-- Applying a sequence of filter-state updates in order. -/
def applyFilterEvents (f : SearchFilters) (es : List FilterEvent) : SearchFilters :=
  es.foldl applyFilterEvent f

/-- The values each control in `FilterPanel.tsx` can emit: the genre select
lists `['all', 'action', 'comedy', 'romance']`; the Min Rating slider has
`min=1 max=10`; the alpha slider `min=0 max=1`; the Distance Threshold
slider `min=0.1 max=1`; the Results slider `min=1 max=20`.  An HTML range
input only reports values within its min/max bounds. -/
def sliderAdmissible : FilterEvent → Prop
  | .setGenre g => g ∈ ["all", "action", "comedy", "romance"]
  | .setMinRating r => 1 ≤ r ∧ r ≤ 10
  | .setAlpha a => 0 ≤ a ∧ a ≤ 1
  | .setDistanceThreshold d => 1/10 ≤ d ∧ d ≤ 1
  | .setNumResults n => 1 ≤ n ∧ n ≤ 20

/-- The documented ranges of the per-request options. -/
def FiltersInRange (f : SearchFilters) : Prop :=
  1 ≤ f.numResults ∧ f.numResults ≤ 20 ∧
  0 ≤ f.alpha ∧ f.alpha ≤ 1 ∧
  1/10 ≤ f.distanceThreshold ∧ f.distanceThreshold ≤ 1 ∧
  1 ≤ f.minRating ∧ f.minRating ≤ 10

/-! ### Helper lemmas -/

/-- Shape of the single request each `handleSearch` arm issues. -/
theorem handleSearch_spec (st : SearchType) (q : String) (f : SearchFilters) :
    ∃ r, handleSearch st q f = [r]
      ∧ r.endpoint = endpointFor st
      ∧ r.body.query = q
      ∧ r.body.num_results = f.numResults
      ∧ (r.body.alpha.isSome ↔ st = SearchType.hybrid)
      ∧ (r.body.distance_threshold.isSome ↔ st = SearchType.range)
      ∧ (r.body.genre.isSome → st = SearchType.filtered)
      ∧ (r.body.min_rating.isSome → st = SearchType.filtered)
      ∧ (∀ a, r.body.alpha = some a → a = f.alpha)
      ∧ (∀ d, r.body.distance_threshold = some d → d = f.distanceThreshold)
      ∧ (∀ g, r.body.genre = some g → g = f.genre)
      ∧ (∀ mr, r.body.min_rating = some mr → mr = f.minRating) := by
  cases st <;>
    refine ⟨_, rfl, rfl, rfl, rfl, ?_, ?_, ?_, ?_, ?_, ?_, ?_, ?_⟩ <;>
    simp only [vectorSearch, filteredSearch, keywordSearch, hybridSearch,
      rangeSearch] <;> simp

/-- `endpointFor` is injective: distinct modes hit distinct endpoints. -/
theorem endpointFor_inj (a b : SearchType) (h : endpointFor a = endpointFor b) :
    a = b := by
  revert h; cases a <;> cases b <;> decide

/-- The requests issued by one `sendMessage` run. -/
theorem sendMessage_requests_eq (msgs : List HelpChatMessage) (loading : Bool)
    (text : String) (o : FetchOutcome) :
    (sendMessage msgs loading text o).requests
      = if jsTrim text = "" ∨ loading = true then []
        else [{ message := text, use_cache := true }] := by
  unfold sendMessage
  split
  · rfl
  · cases o <;> rfl

/-- Trimming the empty string is the empty string, so a string with a
non-empty trim is itself non-empty. -/
theorem ne_empty_of_trim_ne_empty (s : String) (h : jsTrim s ≠ "") : s ≠ "" := by
  intro hs
  subst hs
  exact h (by decide)

/-- The initial filter state is within the documented ranges. -/
theorem filtersInRange_default : FiltersInRange defaultFilters := by
  refine ⟨?_, ?_, ?_, ?_, ?_, ?_, ?_, ?_⟩ <;> norm_num [defaultFilters]

/-- One admissible control event preserves the documented ranges. -/
theorem filtersInRange_step (f : SearchFilters) (e : FilterEvent)
    (hf : FiltersInRange f) (he : sliderAdmissible e) :
    FiltersInRange (applyFilterEvent f e) := by
  obtain ⟨h1, h2, h3, h4, h5, h6, h7, h8⟩ := hf
  cases e <;>
    simp only [applyFilterEvent, sliderAdmissible] at he ⊢ <;>
    exact ⟨by tauto, by tauto, by tauto, by tauto, by tauto, by tauto,
      by tauto, by tauto⟩

/-- Any sequence of admissible control events preserves the ranges. -/
theorem filtersInRange_foldl (es : List FilterEvent) (f : SearchFilters)
    (hf : FiltersInRange f) (he : ∀ e ∈ es, sliderAdmissible e) :
    FiltersInRange (applyFilterEvents f es) := by
  induction es generalizing f with
  | nil => exact hf
  | cons e es ih =>
      exact ih (applyFilterEvent f e)
        (filtersInRange_step f e hf (he e (by simp)))
        (fun x hx => he x (by simp [hx]))

/-! ### Claim theorems -/

/-- C1: every assistant message rendered in the help chat shows exactly one
status badge, with fixed precedence Off-topic over Cached over LLM (blocked
wins even when `from_cache` is also true), and the token-usage indicator is
rendered exactly when `token_usage` is present in the response. -/
theorem assistant_badge_precedence (data : HelpChatResponse) :
    (botMessageOf data).role = Role.assistant
  ∧ (statusBadges (botMessageOf data)).length = 1
  ∧ (data.blocked = some true →
      statusBadges (botMessageOf data) = [Badge.offTopic])
  ∧ (data.blocked.getD false = false → data.from_cache = true →
      statusBadges (botMessageOf data) = [Badge.cached])
  ∧ (data.blocked.getD false = false → data.from_cache = false →
      statusBadges (botMessageOf data) = [Badge.llm])
  ∧ tokenUsageShown (botMessageOf data) = data.token_usage.isSome := by
  refine ⟨rfl, ?_, ?_, ?_, ?_, rfl⟩
  · unfold statusBadges
    split
    · rfl
    · split <;> rfl
  · intro hb
    simp [statusBadges, botMessageOf, hb]
  · intro hb hc
    simp [statusBadges, botMessageOf, hb, hc]
  · intro hb hc
    simp [statusBadges, botMessageOf, hb, hc]

/-- Witness for C1: a blocked response that is also marked as from the cache
still shows the Off-topic badge. -/
theorem assistant_badge_precedence_witness :
    statusBadges (botMessageOf
      { answer := "a", sources := [], from_cache := true
        response_time_ms := 3, blocked := some true }) = [Badge.offTopic] :=
  (assistant_badge_precedence
      { answer := "a", sources := [], from_cache := true
        response_time_ms := 3, blocked := some true }).2.2.1 rfl

/-- C2: a movie search with a non-empty query issues exactly one POST, to
the endpoint of the selected mode; the body always contains `query` and
`num_results`, and contains `alpha` only in hybrid mode,
`distance_threshold` only in range mode, and `genre`/`min_rating` only in
filtered mode. -/
theorem search_request_shape (st : SearchType) (q : String) (f : SearchFilters)
    (_hq : q ≠ "") :
    ∃ r, handleSearch st q f = [r]
      ∧ r.endpoint = endpointFor st
      ∧ r.body.query = q
      ∧ r.body.num_results = f.numResults
      ∧ (r.body.alpha.isSome ↔ st = SearchType.hybrid)
      ∧ (r.body.distance_threshold.isSome ↔ st = SearchType.range)
      ∧ (r.body.genre.isSome → st = SearchType.filtered)
      ∧ (r.body.min_rating.isSome → st = SearchType.filtered) := by
  obtain ⟨r, h1, h2, h3, h4, h5, h6, h7, h8, -, -, -, -⟩ :=
    handleSearch_spec st q f
  exact ⟨r, h1, h2, h3, h4, h5, h6, h7, h8⟩

/-- Witness for C2: the hybrid-mode request for a concrete query. -/
theorem search_request_shape_witness :
    ∃ r, handleSearch SearchType.hybrid "heist movies" defaultFilters = [r]
      ∧ r.endpoint = endpointFor SearchType.hybrid
      ∧ r.body.query = "heist movies"
      ∧ r.body.num_results = defaultFilters.numResults
      ∧ (r.body.alpha.isSome ↔ SearchType.hybrid = SearchType.hybrid)
      ∧ (r.body.distance_threshold.isSome ↔
          SearchType.hybrid = SearchType.range)
      ∧ (r.body.genre.isSome → SearchType.hybrid = SearchType.filtered)
      ∧ (r.body.min_rating.isSome → SearchType.hybrid = SearchType.filtered) :=
  search_request_shape SearchType.hybrid "heist movies" defaultFilters
    (by decide)

/-- C9: every help-chat request body issued by `sendMessage` is exactly
`{message: text, use_cache: true}`; caching is never disabled by the UI. -/
theorem chat_request_always_uses_cache (msgs : List HelpChatMessage)
    (loading : Bool) (text : String) (o : FetchOutcome) :
    ∀ r ∈ (sendMessage msgs loading text o).requests,
      r.message = text ∧ r.use_cache = true := by
  intro r hr
  rw [sendMessage_requests_eq] at hr
  split at hr
  · simp at hr
  · simp at hr
    subst hr
    exact ⟨rfl, rfl⟩

/-- Witness for C9: the single request of a concrete chat send carries the
entered text and `use_cache = true`. -/
theorem chat_request_always_uses_cache_witness :
    ({ message := "hi", use_cache := true } : ChatRequestBody).message = "hi"
  ∧ ({ message := "hi", use_cache := true } : ChatRequestBody).use_cache
      = true :=
  chat_request_always_uses_cache [] false "hi" FetchOutcome.httpError
    { message := "hi", use_cache := true } (by decide)

/-- C10: the filtered-search body contains `genre` iff the selected genre
differs from `all`, and `min_rating` iff the selected minimum rating is
strictly greater than 1; a minimum rating of exactly 1 is omitted. -/
theorem filtered_request_optional_fields (q : String) (f : SearchFilters) :
    ∃ r, handleSearch SearchType.filtered q f = [r]
      ∧ (r.body.genre.isSome ↔ f.genre ≠ "all")
      ∧ (∀ g, r.body.genre = some g → g = f.genre)
      ∧ (r.body.min_rating.isSome ↔ 1 < f.minRating)
      ∧ (f.minRating = 1 → r.body.min_rating = none) := by
  refine ⟨_, rfl, ?_, ?_, ?_, ?_⟩
  · by_cases hg : f.genre = "all" <;> simp [filteredSearch, hg]
  · intro g hg
    by_cases h : f.genre = "all"
    · simp [filteredSearch, h] at hg
    · simp [filteredSearch, h] at hg
      simp [hg]
  · by_cases hm : 1 < f.minRating <;> simp [filteredSearch, hm]
  · intro h1
    simp [filteredSearch, h1]

/-- Witness for C10: with the default filters (genre `all`, minimum rating
1) the filtered request omits both optional fields. -/
theorem filtered_request_optional_fields_witness :
    ∃ r, handleSearch SearchType.filtered "x" defaultFilters = [r]
      ∧ (r.body.genre.isSome ↔ defaultFilters.genre ≠ "all")
      ∧ (∀ g, r.body.genre = some g → g = defaultFilters.genre)
      ∧ (r.body.min_rating.isSome ↔ 1 < defaultFilters.minRating)
      ∧ (defaultFilters.minRating = 1 → r.body.min_rating = none) :=
  filtered_request_optional_fields "x" defaultFilters

/-- C3: after a prior search (`hasSearched` true, non-empty `lastQuery`),
selecting a different tab schedules exactly the search issued by the
closure-captured `handleSearch`, so the deferred request is built with the
search type captured before the state update, not necessarily the newly
selected one; without a prior search no request is issued. -/
theorem tab_change_runs_stale_search (c : ClosureState) (t : SearchType) :
    (handleSearchTypeChange c t).1 = t
  ∧ ((handleSearchTypeChange c t).2 ≠ []
      ↔ (c.lastQuery ≠ "" ∧ c.hasSearched = true))
  ∧ (c.lastQuery ≠ "" → c.hasSearched = true →
      (handleSearchTypeChange c t).2
          = handleSearch c.searchType c.lastQuery c.filters
        ∧ ∀ r ∈ (handleSearchTypeChange c t).2,
            r.endpoint = endpointFor c.searchType
          ∧ r.body.query = c.lastQuery
          ∧ (c.searchType ≠ t → r.endpoint ≠ endpointFor t)) := by
  obtain ⟨r0, hr0, hep, hq, -, -, -, -, -, -, -, -, -⟩ :=
    handleSearch_spec c.searchType c.lastQuery c.filters
  refine ⟨rfl, ?_, ?_⟩
  · constructor
    · intro hne
      by_cases h : c.lastQuery ≠ "" ∧ c.hasSearched = true
      · exact h
      · exact absurd (by simp [handleSearchTypeChange, h]) hne
    · intro h
      simp [handleSearchTypeChange, h, hr0]
  · intro h1 h2
    have hcond : c.lastQuery ≠ "" ∧ c.hasSearched = true := ⟨h1, h2⟩
    refine ⟨by simp [handleSearchTypeChange, hcond], ?_⟩
    intro r hr
    simp [handleSearchTypeChange, hcond, hr0] at hr
    subst hr
    refine ⟨hep, hq, ?_⟩
    intro hne hcontra
    exact hne (endpointFor_inj _ _ (by rw [← hep]; exact hcontra))

/-- Witness for C3: with a captured `vector` state and the `keyword` tab
clicked, the deferred request is the vector-mode search for the old query. -/
theorem tab_change_runs_stale_search_witness :
    (handleSearchTypeChange
        { searchType := SearchType.vector, lastQuery := "q"
          hasSearched := true, filters := defaultFilters }
        SearchType.keyword).2
      = handleSearch SearchType.vector "q" defaultFilters :=
  ((tab_change_runs_stale_search
      { searchType := SearchType.vector, lastQuery := "q"
        hasSearched := true, filters := defaultFilters }
      SearchType.keyword).2.2 (by decide) rfl).1

/-- C4: when the help-chat fetch throws or returns a non-OK status, exactly
one assistant message with the fixed error text is appended after the user
message, exactly one request was issued (no retry), and the loading flag is
reset to false. -/
theorem chat_error_single_fixed_message (msgs : List HelpChatMessage)
    (text : String) (o : FetchOutcome)
    (ht : jsTrim text ≠ "")
    (ho : o = FetchOutcome.httpError ∨ o = FetchOutcome.networkError) :
    (sendMessage msgs false text o).messages
        = msgs ++ [userMessageOf text, errorMessage]
  ∧ errorMessage.content = "Sorry, I encountered an error. Please try again."
  ∧ errorMessage.role = Role.assistant
  ∧ (sendMessage msgs false text o).isLoading = false
  ∧ (sendMessage msgs false text o).requests.length = 1
  ∧ userMessageOf text ∈ (sendMessage msgs false text o).messages := by
  rcases ho with rfl | rfl <;>
    refine ⟨?_, rfl, rfl, ?_, ?_, ?_⟩ <;>
    simp [sendMessage, ht]

/-- Witness for C4: a concrete failed send appends the user message and the
fixed error message. -/
theorem chat_error_single_fixed_message_witness :
    (sendMessage [] false "hi" FetchOutcome.httpError).messages
      = [] ++ [userMessageOf "hi", errorMessage] :=
  (chat_error_single_fixed_message [] "hi" FetchOutcome.httpError (by decide)
    (Or.inl rfl)).1

/-- C5: the stats panel shows the cache similarity threshold as
`(1 - distance_threshold) * 100` percent, strictly decreasing in the
reported distance threshold; an absent cache-stats object or threshold
defaults to 0 and displays as 100. -/
theorem cache_threshold_display (c1 c2 : Option CacheStats) (cs : CacheStats)
    (d : ℚ)
    (h : effectiveDistanceThreshold c1 < effectiveDistanceThreshold c2) :
    displayedSimilarityThreshold c2 < displayedSimilarityThreshold c1
  ∧ (cs.distance_threshold = some d →
      displayedSimilarityThreshold (some cs) = (1 - d) * 100)
  ∧ displayedSimilarityThreshold none = 100
  ∧ (cs.distance_threshold = none →
      displayedSimilarityThreshold (some cs) = 100) := by
  refine ⟨?_, ?_, ?_, ?_⟩
  · unfold displayedSimilarityThreshold
    linarith
  · intro hd
    simp [displayedSimilarityThreshold, effectiveDistanceThreshold, hd]
  · norm_num [displayedSimilarityThreshold, effectiveDistanceThreshold]
  · intro hd
    norm_num [displayedSimilarityThreshold, effectiveDistanceThreshold, hd]

/-- Witness for C5: raising the distance threshold from 1/4 to 1/2 strictly
lowers the displayed similarity threshold. -/
theorem cache_threshold_display_witness :
    displayedSimilarityThreshold (some { distance_threshold := some (1/2) })
      < displayedSimilarityThreshold
          (some { distance_threshold := some (1/4) }) :=
  (cache_threshold_display (some { distance_threshold := some (1/4) })
    (some { distance_threshold := some (1/2) })
    { distance_threshold := some (1/4) } (1/4)
    (by norm_num [effectiveDistanceThreshold])).1

/-- C6: in hybrid mode all three component scores are displayed, with `N/A`
for a missing component; in vector, filtered and range modes the similarity
percentage is displayed exactly when `similarity` is non-null; in keyword
mode the BM25 score is displayed exactly when `score` is non-null. -/
theorem movie_card_score_display (m : MovieResult) :
    (∃ b, hybridBreakdown m "hybrid" = some b
       ∧ (b.vectorSimilarity = BreakdownCell.na ↔ m.vector_similarity = none)
       ∧ (b.textScore = BreakdownCell.na ↔ m.text_score = none)
       ∧ (b.hybridScore = BreakdownCell.na ↔ m.hybrid_score = none)
       ∧ (∀ v, m.vector_similarity = some v →
            b.vectorSimilarity = BreakdownCell.value v)
       ∧ (∀ v, m.text_score = some v → b.textScore = BreakdownCell.value v)
       ∧ (∀ v, m.hybrid_score = some v →
            b.hybridScore = BreakdownCell.value v))
  ∧ ((getScoreDisplay m "vector").isSome ↔ m.similarity.isSome)
  ∧ ((getScoreDisplay m "filtered").isSome ↔ m.similarity.isSome)
  ∧ ((getScoreDisplay m "range").isSome ↔ m.similarity.isSome)
  ∧ ((getScoreDisplay m "keyword").isSome ↔ m.score.isSome)
  ∧ (∀ s, m.similarity = some s →
      getScoreDisplay m "vector"
        = some (ScoreDisplayVal.similarityPercent (s * 100)))
  ∧ (∀ s, m.score = some s →
      getScoreDisplay m "keyword" = some (ScoreDisplayVal.bm25Score s)) := by
  refine ⟨⟨{ vectorSimilarity := cellOf m.vector_similarity
             textScore := cellOf m.text_score
             hybridScore := cellOf m.hybrid_score },
           by simp [hybridBreakdown], ?_, ?_, ?_, ?_, ?_, ?_⟩,
          ?_, ?_, ?_, ?_, ?_, ?_⟩
  · cases m.vector_similarity <;> simp [cellOf]
  · cases m.text_score <;> simp [cellOf]
  · cases m.hybrid_score <;> simp [cellOf]
  · intro v hv
    simp [hv, cellOf]
  · intro v hv
    simp [hv, cellOf]
  · intro v hv
    simp [hv, cellOf]
  · cases h : m.similarity <;> simp [getScoreDisplay, h]
  · cases h : m.similarity <;> simp [getScoreDisplay, h]
  · cases h : m.similarity <;> simp [getScoreDisplay, h]
  · cases h : m.score <;> simp [getScoreDisplay, h]
  · intro s hs
    simp [getScoreDisplay, hs]
  · intro s hs
    simp [getScoreDisplay, hs]

/-- Witness for C6: a keyword result with a BM25 score of 2 displays it. -/
theorem movie_card_score_display_witness :
    getScoreDisplay
        { title := "T", genre := "action", rating := RatingValue.num 7
          description := "d", score := some 2 } "keyword"
      = some (ScoreDisplayVal.bm25Score 2) :=
  (movie_card_score_display
      { title := "T", genre := "action", rating := RatingValue.num 7
        description := "d", score := some 2 }).2.2.2.2.2.2 2 rfl

/-- C7: an empty query never reaches a search or chat operation from the
UI: the search form submits exactly the trimmed query and only when it is
non-empty, and the chat issues no request when the text trims to empty, so
every string that reaches the backend is non-empty. -/
theorem empty_query_unreachable (q : String) (msgs : List HelpChatMessage)
    (o : FetchOutcome) :
    ((handleSubmit q).isSome ↔ jsTrim q ≠ "")
  ∧ (∀ s, handleSubmit q = some s → s = jsTrim q ∧ s ≠ "")
  ∧ (jsTrim q = "" → (sendMessage msgs false q o).requests = [])
  ∧ (∀ r ∈ (sendMessage msgs false q o).requests, r.message ≠ "") := by
  refine ⟨?_, ?_, ?_, ?_⟩
  · by_cases h : jsTrim q = "" <;> simp [handleSubmit, h]
  · intro s hs
    unfold handleSubmit at hs
    split at hs
    · rename_i h
      injection hs with hs2
      exact ⟨hs2.symm, hs2 ▸ h⟩
    · exact absurd hs (by simp)
  · intro h
    rw [sendMessage_requests_eq]
    simp [h]
  · intro r hr
    rw [sendMessage_requests_eq] at hr
    split at hr
    · simp at hr
    · rename_i hcond
      simp at hr
      subst hr
      push_neg at hcond
      exact ne_empty_of_trim_ne_empty q hcond.1

/-- Witness for C7: a whitespace-only chat input issues no request. -/
theorem empty_query_unreachable_witness :
    (sendMessage [] false "  " FetchOutcome.httpError).requests = [] :=
  (empty_query_unreachable "  " [] FetchOutcome.httpError).2.2.1 (by decide)

/-- C8: starting from the defaults (5, 0.5, 0.5, 1) and applying any
sequence of control events within the slider bounds of `FilterPanel.tsx`,
every issued request has `num_results` in [1,20], `alpha` in [0,1],
`distance_threshold` in [0.1,1] and `min_rating` in [1,10]; in particular
`num_results ≤ 0` never holds. -/
theorem ui_search_options_in_range (es : List FilterEvent) (st : SearchType)
    (q : String) (h : ∀ e ∈ es, sliderAdmissible e) :
    ∃ r, handleSearch st q (applyFilterEvents defaultFilters es) = [r]
      ∧ 1 ≤ r.body.num_results ∧ r.body.num_results ≤ 20
      ∧ (∀ a, r.body.alpha = some a → 0 ≤ a ∧ a ≤ 1)
      ∧ (∀ d, r.body.distance_threshold = some d → 1/10 ≤ d ∧ d ≤ 1)
      ∧ (∀ mr, r.body.min_rating = some mr → 1 ≤ mr ∧ mr ≤ 10)
      ∧ ¬ r.body.num_results ≤ 0
      ∧ defaultFilters.numResults = 5
      ∧ defaultFilters.alpha = 1/2
      ∧ defaultFilters.distanceThreshold = 1/2 := by
  obtain ⟨hn1, hn2, ha1, ha2, hd1, hd2, hm1, hm2⟩ :=
    filtersInRange_foldl es defaultFilters filtersInRange_default h
  obtain ⟨r, hr, -, -, hn, -, -, -, -, hA, hD, -, hM⟩ :=
    handleSearch_spec st q (applyFilterEvents defaultFilters es)
  refine ⟨r, hr, ?_, ?_, ?_, ?_, ?_, ?_, rfl, rfl, rfl⟩
  · rw [hn]; exact hn1
  · rw [hn]; exact hn2
  · intro a haa
    rw [hA a haa]
    exact ⟨ha1, ha2⟩
  · intro d hdd
    rw [hD d hdd]
    exact ⟨hd1, hd2⟩
  · intro mr hmr
    rw [hM mr hmr]
    exact ⟨hm1, hm2⟩
  · rw [hn]; omega

/-- Witness for C8: with no control event applied, the range-mode request
satisfies all the documented bounds. -/
theorem ui_search_options_in_range_witness :
    ∃ r, handleSearch SearchType.range "x"
          (applyFilterEvents defaultFilters []) = [r]
      ∧ 1 ≤ r.body.num_results ∧ r.body.num_results ≤ 20
      ∧ (∀ a, r.body.alpha = some a → 0 ≤ a ∧ a ≤ 1)
      ∧ (∀ d, r.body.distance_threshold = some d → 1/10 ≤ d ∧ d ≤ 1)
      ∧ (∀ mr, r.body.min_rating = some mr → 1 ≤ mr ∧ mr ≤ 10)
      ∧ ¬ r.body.num_results ≤ 0
      ∧ defaultFilters.numResults = 5
      ∧ defaultFilters.alpha = 1/2
      ∧ defaultFilters.distanceThreshold = 1/2 :=
  ui_search_options_in_range [] SearchType.range "x" (by simp)

end MovieRecommender
